import Mathlib

/-!
Verification of the orchestration script `orchestration.py`.

The script drives a patch-management REST API: it resolves names to ids,
starts a scan, waits for it to succeed, starts a patch deployment, waits for
the deployment object to become inspectable, fetches the affected machines,
waits for the deployment to succeed, and shuts the machines down.

The embedding below models the HTTP layer by its observable data: a status
poll is a `PollResponse` (HTTP status code plus the body as `.json()` parses
it, `none` standing for a body that is not valid JSON, on which `.json()`
raises), and each polling loop of the script is a function consuming a finite
prefix of the stream of poll responses and reporting what the loop did on it.
-/

namespace Orchestration

/-- The JSON payload of `GET operations/{id}` as the script reads it:
`data.get("status")` and `status.get("operation")`, where a missing key gives
Python `None`, embedded as `none`. -/
structure OpPayload where
  status : Option String
  operation : Option String
deriving DecidableEq, Repr

/-- One HTTP response to a status poll: the `status_code`, and the body as
`.json()` would parse it — `none` when the body is not a valid JSON object,
in which case `.json()` raises an exception. -/
structure PollResponse where
  status_code : Nat
  body : Option OpPayload
deriving DecidableEq, Repr

/-- What one iteration of a polling loop does with the response it fetched:
break out of the loop (`done`), sleep and poll again (`again`), or raise an
exception out of the loop (`raised`). -/
inductive PollResult where
  | done
  | again
  | raised
deriving DecidableEq, Repr

/-- One iteration of the completion-wait loop shared by `start_deployment`
(orchestration.py lines 285-293) and `wait_for_shutdown` (lines 355-363):

    response = operation_status(id)
    if response.status_code == 200:
        data = response.json()
        if data.get("status") == desired_status:   # "Succeeded"
            break
    time.sleep(30)

Only a 200 response is parsed; its payload breaks the loop exactly when
`status` is `"Succeeded"`; a 200 response whose body is not JSON makes
`.json()` raise; every non-200 response falls through to the sleep. -/
def completionStep (r : PollResponse) : PollResult :=
  if r.status_code = 200 then
    match r.body with
    | none => .raised
    | some data => if data.status = some "Succeeded" then .done else .again
  else .again

/-- One iteration of the readiness-wait loop at the top of
`get_patch_deployment_machines` (orchestration.py lines 305-309):

    status = operation_status(id).json()
    if status.get("operation") == "PatchDeployment":
        break
    time.sleep(5)

The body is parsed unconditionally — the HTTP status code is never
consulted — so a body that is not valid JSON makes `.json()` raise. -/
def readinessStep (r : PollResponse) : PollResult :=
  match r.body with
  | none => .raised
  | some st => if st.operation = some "PatchDeployment" then .done else .again

/-- The outcome of running a `while True` polling loop on a finite prefix of
the response stream: it broke out on the i-th response (`succeeded i`),
raised an exception on the i-th response (`raised i`), or consumed the whole
prefix without leaving the loop (`exhausted`). -/
inductive WaitOutcome where
  | succeeded (i : Nat)
  | raised (i : Nat)
  | exhausted
deriving DecidableEq, Repr

/-- Run a polling loop, one `step` per successive response. -/
def runWait (step : PollResponse → PollResult) : List PollResponse → WaitOutcome
  | [] => .exhausted
  | r :: rs =>
    match step r with
    | .done => .succeeded 0
    | .raised => .raised 0
    | .again =>
      match runWait step rs with
      | .succeeded i => .succeeded (i + 1)
      | .raised i => .raised (i + 1)
      | .exhausted => .exhausted

/-- The scan-completion wait loop in `start_deployment` (lines 285-293). -/
def start_deployment_wait : List PollResponse → WaitOutcome :=
  runWait completionStep

/-- The deployment-completion wait loop in `wait_for_shutdown`
(lines 355-363); it is textually identical to the one in
`start_deployment`. -/
def wait_for_shutdown_wait : List PollResponse → WaitOutcome :=
  runWait completionStep

/-- The deployment-readiness wait loop in `get_patch_deployment_machines`
(lines 305-309). -/
def deployment_ready_wait : List PollResponse → WaitOutcome :=
  runWait readinessStep

/-- A poll response on which the completion-wait loops break: HTTP 200 and a
JSON payload whose `status` field is `"Succeeded"`. -/
def succeededPoll (r : PollResponse) : Bool :=
  r.status_code == 200 &&
    match r.body with
    | some p => p.status == some "Succeeded"
    | none => false

/-- A poll response on which the readiness-wait loop breaks: a JSON payload
whose `operation` field is `"PatchDeployment"`. -/
def readyPoll (r : PollResponse) : Bool :=
  match r.body with
  | some p => p.operation == some "PatchDeployment"
  | none => false

theorem runWait_cons_succeeded_zero (step : PollResponse → PollResult)
    (a : PollResponse) (rs : List PollResponse) :
    runWait step (a :: rs) = .succeeded 0 ↔ step a = .done := by
  cases h : step a with
  | done => simp [runWait, h]
  | raised => simp [runWait, h]
  | again => cases hr : runWait step rs <;> simp [runWait, h, hr]

theorem runWait_cons_succeeded_succ (step : PollResponse → PollResult)
    (a : PollResponse) (rs : List PollResponse) (n : Nat) :
    runWait step (a :: rs) = .succeeded (n + 1) ↔
      step a = .again ∧ runWait step rs = .succeeded n := by
  cases h : step a with
  | done => simp [runWait, h]
  | raised => simp [runWait, h]
  | again => cases hr : runWait step rs <;> simp [runWait, h, hr]

/-- A polling loop breaks out on the i-th response exactly when its step
breaks on that response and slept-and-retried on every earlier one. -/
theorem runWait_succeeded_iff (step : PollResponse → PollResult)
    (rs : List PollResponse) (i : Nat) :
    runWait step rs = .succeeded i ↔
      (∃ r, rs[i]? = some r ∧ step r = .done) ∧
        ∀ j, j < i → ∀ r, rs[j]? = some r → step r = .again := by
  induction rs generalizing i with
  | nil => simp [runWait]
  | cons a rs ih =>
    cases i with
    | zero =>
      rw [runWait_cons_succeeded_zero]
      constructor
      · intro h
        exact ⟨⟨a, by simp, h⟩, fun j hj => absurd hj (Nat.not_lt_zero j)⟩
      · rintro ⟨⟨r, hr, hd⟩, -⟩
        rw [List.getElem?_cons_zero] at hr
        cases hr
        exact hd
    | succ k =>
      rw [runWait_cons_succeeded_succ, ih k]
      constructor
      · rintro ⟨hagain, ⟨r, hr, hd⟩, hall⟩
        refine ⟨⟨r, by simpa using hr, hd⟩, ?_⟩
        intro j hj r' hr'
        cases j with
        | zero =>
          rw [List.getElem?_cons_zero] at hr'
          cases hr'
          exact hagain
        | succ j' =>
          rw [List.getElem?_cons_succ] at hr'
          exact hall j' (by omega) r' hr'
      · rintro ⟨⟨r, hr, hd⟩, hall⟩
        refine ⟨hall 0 (Nat.succ_pos k) a (by simp), ⟨r, by simpa using hr, hd⟩, ?_⟩
        intro j hj r' hr'
        exact hall (j + 1) (by omega) r' (by simpa using hr')

/-- A polling loop whose step retries on every response of the prefix never
leaves the loop on that prefix. -/
theorem runWait_exhausted_of_again (step : PollResponse → PollResult)
    (rs : List PollResponse) (h : ∀ r ∈ rs, step r = .again) :
    runWait step rs = .exhausted := by
  induction rs with
  | nil => rfl
  | cons a rs ih =>
    have ha := h a (List.mem_cons_self a rs)
    have hrs := ih fun r hr => h r (List.mem_cons_of_mem a hr)
    simp [runWait, ha, hrs]

theorem completionStep_done_iff (r : PollResponse) :
    completionStep r = .done ↔ succeededPoll r = true := by
  unfold completionStep succeededPoll
  cases hb : r.body with
  | none => by_cases h : r.status_code = 200 <;> simp [h]
  | some p =>
    by_cases h : r.status_code = 200 <;>
      by_cases hs : p.status = some "Succeeded" <;> simp [h, hs]

theorem completionStep_again_of_wf (r : PollResponse)
    (hwf : r.status_code = 200 → r.body.isSome) :
    completionStep r = .again ↔ succeededPoll r = false := by
  unfold completionStep succeededPoll
  by_cases h : r.status_code = 200
  · cases hb : r.body with
    | none => exact absurd (hwf h) (by simp [hb])
    | some p => by_cases hs : p.status = some "Succeeded" <;> simp [h, hs]
  · simp [h]

theorem readinessStep_done_iff (r : PollResponse) :
    readinessStep r = .done ↔ readyPoll r = true := by
  unfold readinessStep readyPoll
  cases hb : r.body with
  | none => simp
  | some p => by_cases ho : p.operation = some "PatchDeployment" <;> simp [ho]

theorem readinessStep_again_of_wf (r : PollResponse)
    (hwf : r.body.isSome) :
    readinessStep r = .again ↔ readyPoll r = false := by
  unfold readinessStep readyPoll
  cases hb : r.body with
  | none => exact absurd hwf (by simp [hb])
  | some p => by_cases ho : p.operation = some "PatchDeployment" <;> simp [ho]

theorem mem_of_getElemOpt {α : Type} {l : List α} {i : Nat} {a : α}
    (h : l[i]? = some a) : a ∈ l := by
  induction l generalizing i with
  | nil => simp at h
  | cons b l ih =>
    cases i with
    | zero =>
      rw [List.getElem?_cons_zero] at h
      cases h
      exact List.mem_cons_self _ _
    | succ j =>
      rw [List.getElem?_cons_succ] at h
      exact List.mem_cons_of_mem b (ih h)

/-- C1: for every sequence of polled responses in which every 200 response
carries a valid JSON payload (otherwise `.json()` raises and the loop is
aborted rather than left), the scan-completion wait in `start_deployment`
and the deployment-completion wait in `wait_for_shutdown` break out on the
i-th poll exactly when that poll has HTTP status 200 and its payload's
`status` field equals `"Succeeded"`, and every earlier poll does not report
`"Succeeded"`. -/
theorem C1_completion_waits_terminate_iff_succeeded
    (rs : List PollResponse)
    (hwf : ∀ r ∈ rs, r.status_code = 200 → r.body.isSome) (i : Nat) :
    (start_deployment_wait rs = .succeeded i ↔
      (∃ r, rs[i]? = some r ∧ succeededPoll r = true) ∧
        ∀ j, j < i → ∀ r, rs[j]? = some r → succeededPoll r = false) ∧
    (wait_for_shutdown_wait rs = .succeeded i ↔
      (∃ r, rs[i]? = some r ∧ succeededPoll r = true) ∧
        ∀ j, j < i → ∀ r, rs[j]? = some r → succeededPoll r = false) := by
  have key : runWait completionStep rs = .succeeded i ↔
      (∃ r, rs[i]? = some r ∧ succeededPoll r = true) ∧
        ∀ j, j < i → ∀ r, rs[j]? = some r → succeededPoll r = false := by
    rw [runWait_succeeded_iff]
    constructor
    · rintro ⟨⟨r, hr, hd⟩, hall⟩
      refine ⟨⟨r, hr, (completionStep_done_iff r).mp hd⟩, ?_⟩
      intro j hj r' hr'
      have hmem : r' ∈ rs := mem_of_getElemOpt hr'
      exact (completionStep_again_of_wf r' (hwf r' hmem)).mp (hall j hj r' hr')
    · rintro ⟨⟨r, hr, hd⟩, hall⟩
      refine ⟨⟨r, hr, (completionStep_done_iff r).mpr hd⟩, ?_⟩
      intro j hj r' hr'
      have hmem : r' ∈ rs := mem_of_getElemOpt hr'
      exact (completionStep_again_of_wf r' (hwf r' hmem)).mpr (hall j hj r' hr')
  exact ⟨key, key⟩

/-- Witness for C1: on the stream `Running` then `Succeeded` (both 200), both
completion waits break out on the second poll. -/
theorem C1_completion_waits_terminate_iff_succeeded_witness :
    start_deployment_wait
      [⟨200, some ⟨some "Running", none⟩⟩, ⟨200, some ⟨some "Succeeded", none⟩⟩]
      = .succeeded 1 := by
  refine ((C1_completion_waits_terminate_iff_succeeded
    [⟨200, some ⟨some "Running", none⟩⟩, ⟨200, some ⟨some "Succeeded", none⟩⟩]
    (by decide) 1).1).mpr ⟨⟨⟨200, some ⟨some "Succeeded", none⟩⟩, rfl, rfl⟩, ?_⟩
  intro j hj r hr
  obtain rfl : j = 0 := by omega
  rw [List.getElem?_cons_zero] at hr
  cases hr
  rfl

/-- C2: on a response stream in which every poll reports status `"Failed"`
(with HTTP 200), neither completion-wait loop ever leaves the loop: there is
no `Failed` terminal state, the loops keep polling forever. -/
theorem C2_no_failed_terminal_state
    (rs : List PollResponse)
    (h : ∀ r ∈ rs, r.status_code = 200 ∧
      ∃ p, r.body = some p ∧ p.status = some "Failed") :
    start_deployment_wait rs = .exhausted ∧
      wait_for_shutdown_wait rs = .exhausted := by
  have key : runWait completionStep rs = .exhausted := by
    refine runWait_exhausted_of_again completionStep rs ?_
    intro r hr
    obtain ⟨h200, p, hp, hst⟩ := h r hr
    simp [completionStep, h200, hp, hst]
  exact ⟨key, key⟩

/-- Witness for C2: a stream of three `Failed` polls exhausts both loops. -/
theorem C2_no_failed_terminal_state_witness :
    start_deployment_wait
      (List.replicate 3 ⟨200, some ⟨some "Failed", none⟩⟩) = .exhausted ∧
    wait_for_shutdown_wait
      (List.replicate 3 ⟨200, some ⟨some "Failed", none⟩⟩) = .exhausted := by
  refine C2_no_failed_terminal_state _ ?_
  intro r hr
  rw [List.eq_of_mem_replicate hr]
  exact ⟨rfl, ⟨some "Failed", none⟩, rfl, rfl⟩

/-- C3: during the completion waits, every non-200 poll response is treated
as "not yet done": the iteration just sleeps and retries (no exception, no
break), and a stream of only non-200 responses keeps both loops polling
without ever raising or terminating. -/
theorem C3_non_200_polls_are_retried :
    (∀ r : PollResponse, r.status_code ≠ 200 → completionStep r = .again) ∧
    (∀ rs : List PollResponse, (∀ r ∈ rs, r.status_code ≠ 200) →
      start_deployment_wait rs = .exhausted ∧
        wait_for_shutdown_wait rs = .exhausted) := by
  have hstep : ∀ r : PollResponse, r.status_code ≠ 200 →
      completionStep r = .again := by
    intro r h
    simp [completionStep, h]
  refine ⟨hstep, ?_⟩
  intro rs h
  have key : runWait completionStep rs = .exhausted :=
    runWait_exhausted_of_again completionStep rs fun r hr => hstep r (h r hr)
  exact ⟨key, key⟩

/-- Witness for C3: a 503 response with a non-JSON body is retried, and a
stream of a 404 and a 500 response exhausts both loops without an error. -/
theorem C3_non_200_polls_are_retried_witness :
    completionStep ⟨503, none⟩ = .again ∧
      start_deployment_wait [⟨404, none⟩, ⟨500, some ⟨none, none⟩⟩]
        = .exhausted :=
  ⟨C3_non_200_polls_are_retried.1 ⟨503, none⟩ (by decide),
    (C3_non_200_polls_are_retried.2 [⟨404, none⟩, ⟨500, some ⟨none, none⟩⟩]
      (by decide)).1⟩

/-- An entry of the `value` array of a listing endpoint, with the two fields
`get_id_by_name` reads: `item["name"]` and `item["id"]`. -/
structure ListingItem where
  name : String
  id : String
deriving DecidableEq, Repr

/-- The scan loop of `get_id_by_name` (orchestration.py lines 171-174):

    for item in py_obj["value"]:
        if item["name"] == name:
            return item["id"]

A linear scan over the listing's `value` array returning the first item whose
`name` equals `name`; when no item matches, the Python function falls off the
end of the loop and returns `None`, embedded as `none`. -/
def get_id_by_name : List ListingItem → String → Option String
  | [], _ => none
  | item :: rest, name =>
    if item.name = name then some item.id else get_id_by_name rest name

/-- Modelled from the spec: the error the Resolver contract says is raised
when no listing item matches the requested name. -/
inductive ResolveError where
  | NotFoundError
deriving DecidableEq, Repr

/-- Modelled from the spec: `resolveId(resourceKind, name) -> Identifier`,
which "fails with `NotFoundError` if no item in the listing matches `name`
exactly (case-sensitive)" and otherwise returns the first match's id. This
is the spec's contract, stated for comparison with `get_id_by_name`. -/
def resolveId_of_spec (value : List ListingItem) (name : String) :
    Except ResolveError String :=
  match value.find? fun item => item.name == name with
  | some item => .ok item.id
  | none => .error .NotFoundError

/-- C4 counterexample: on a listing with no matching name, `get_id_by_name`
returns Python `None` — a normal return value handed back to the caller —
whereas the spec's contract demands a `NotFoundError` failure: the function
does not fail at all. -/
theorem C4_counterexample_returns_none_not_error :
    get_id_by_name [⟨"serverGroup", "17"⟩] "databaseGroup" = none ∧
      resolveId_of_spec [⟨"serverGroup", "17"⟩] "databaseGroup"
        = .error .NotFoundError := by
  constructor <;> rfl

/-- C4 (amended): for every listing and name such that no item's `name`
field equals the requested name (case-sensitively), `get_id_by_name` returns
an absent result (Python `None`); no `NotFoundError` or other failure is
signalled. -/
theorem C4_no_match_returns_none (value : List ListingItem) (name : String)
    (h : ∀ item ∈ value, item.name ≠ name) :
    get_id_by_name value name = none := by
  induction value with
  | nil => rfl
  | cons item rest ih =>
    have hitem := h item (List.mem_cons_self _ _)
    have hrest := ih fun x hx => h x (List.mem_cons_of_mem item hx)
    simp [get_id_by_name, hitem, hrest]

/-- Witness for C4 (amended): the counterexample listing, via the amended
theorem. -/
theorem C4_no_match_returns_none_witness :
    get_id_by_name [⟨"serverGroup", "17"⟩] "databaseGroup" = none :=
  C4_no_match_returns_none [⟨"serverGroup", "17"⟩] "databaseGroup" (by decide)

/-- C8: when the i-th item of the listing's `value` array has `name` equal
to the requested name and no earlier item does, `get_id_by_name` returns
the i-th item's `id` — the first match of a linear, case-sensitive scan. -/
theorem C8_first_match_id (value : List ListingItem) (name : String)
    (i : Nat) (h : i < value.length)
    (hmatch : (value.get ⟨i, h⟩).name = name)
    (hfirst : ∀ j (hj : j < i), (value.get ⟨j, hj.trans h⟩).name ≠ name) :
    get_id_by_name value name = some (value.get ⟨i, h⟩).id := by
  induction value generalizing i with
  | nil => exact absurd h (Nat.not_lt_zero i)
  | cons item rest ih =>
    cases i with
    | zero =>
      simp at hmatch
      simp [get_id_by_name, hmatch]
    | succ k =>
      have hhead : item.name ≠ name := by
        have := hfirst 0 (Nat.succ_pos k)
        simpa using this
      have hk : k < rest.length := Nat.lt_of_succ_lt_succ h
      have hm : (rest.get ⟨k, hk⟩).name = name := by simpa using hmatch
      have hf : ∀ j (hj : j < k), (rest.get ⟨j, hj.trans hk⟩).name ≠ name := by
        intro j hj
        have := hfirst (j + 1) (Nat.succ_lt_succ hj)
        simpa using this
      have := ih k hk hm hf
      simpa [get_id_by_name, hhead] using this

/-- Witness for C8: in a two-item listing where only the second item is
named `"databaseGroup"`, the scan returns the second item's id. -/
theorem C8_first_match_id_witness :
    get_id_by_name [⟨"serverGroup", "17"⟩, ⟨"databaseGroup", "23"⟩]
      "databaseGroup" = some "23" := by
  have h2 : 1 < ([⟨"serverGroup", "17"⟩, ⟨"databaseGroup", "23"⟩] :
      List ListingItem).length := by decide
  refine C8_first_match_id _ "databaseGroup" 1 h2 rfl ?_
  intro j hj
  obtain rfl : j = 0 := by omega
  show ("serverGroup" : String) ≠ "databaseGroup"
  decide

/-- An entry of the `value` array of
`GET patch/deployments/{id}/machines`, with the two fields the script reads:
`item["name"]` and `item["address"]`. -/
structure MachineEntry where
  name : String
  address : String
deriving DecidableEq, Repr

/-- The record the script builds per machine:
`{"machine_name": item["name"], "ip_address": item["address"]}`. -/
structure MachineRecord where
  machine_name : String
  ip_address : String
deriving DecidableEq, Repr

/-- The machine-list construction in `get_patch_deployment_machines`
(orchestration.py lines 317-322):

    ret = []
    for item in py_obj["value"]:
        obj = {"machine_name": item["name"], "ip_address": item["address"]}
        ret.append(obj)
    return ret
-/
def get_patch_deployment_machines_records :
    List MachineEntry → List MachineRecord
  | [] => []
  | item :: rest =>
    ⟨item.name, item.address⟩ :: get_patch_deployment_machines_records rest

/-- C7: the machine list has exactly one record per entry of the `value`
array, in the same order, with `machine_name` and `ip_address` copied
verbatim from the entry's `name` and `address` fields. -/
theorem C7_machines_mapped_verbatim (value : List MachineEntry) :
    (get_patch_deployment_machines_records value).length = value.length ∧
    ∀ i : Nat,
      ((get_patch_deployment_machines_records value)[i]?).map
          MachineRecord.machine_name = (value[i]?).map MachineEntry.name ∧
      ((get_patch_deployment_machines_records value)[i]?).map
          MachineRecord.ip_address = (value[i]?).map MachineEntry.address := by
  induction value with
  | nil => exact ⟨rfl, fun i => ⟨rfl, rfl⟩⟩
  | cons item rest ih =>
    refine ⟨by simpa [get_patch_deployment_machines_records] using ih.1, ?_⟩
    intro i
    cases i with
    | zero => constructor <;> simp [get_patch_deployment_machines_records]
    | succ j =>
      have := ih.2 j
      simpa [get_patch_deployment_machines_records] using this

/-- Python `s.split("/")`, embedded on the character list of `s`: the list
of segments between the slashes, in order (always nonempty; adjacent or
leading/trailing slashes give empty segments, as in Python). -/
def splitOnSlash : List Char → List (List Char)
  | [] => [[]]
  | c :: cs =>
    if c = '/' then [] :: splitOnSlash cs
    else
      match splitOnSlash cs with
      | [] => [[c]]
      | a :: as => (c :: a) :: as

/-- The response to the deployment-start POST as `patch_deployment` observes
it: the `Location` header, and the JSON body (which may carry an id of its
own — the function never reads it). -/
structure DeployResponse where
  location : String
  body : Option String
deriving DecidableEq, Repr

/-- The identifier extraction in `patch_deployment` (orchestration.py line
266): `uuid = response.headers["Location"].split("/")[-1]` — the trailing
segment of the `Location` header split on `"/"` (Python's `[-1]`; the split
of any string is nonempty, so the `[]` default is never used). -/
def patch_deployment (r : DeployResponse) : String :=
  ⟨(splitOnSlash r.location.data).getLastD []⟩

theorem splitOnSlash_ne_nil (cs : List Char) : splitOnSlash cs ≠ [] := by
  induction cs with
  | nil => simp [splitOnSlash]
  | cons c cs ih =>
    by_cases h : c = '/'
    · simp [splitOnSlash, h]
    · cases hr : splitOnSlash cs <;> simp [splitOnSlash, h, hr]

theorem splitOnSlash_of_no_slash (cs : List Char) (h : '/' ∉ cs) :
    splitOnSlash cs = [cs] := by
  induction cs with
  | nil => rfl
  | cons c cs ih =>
    have hc : c ≠ '/' := fun hc => h (hc ▸ List.mem_cons_self _ _)
    have hcs : '/' ∉ cs := fun hm => h (List.mem_cons_of_mem c hm)
    simp [splitOnSlash, hc, ih hcs]

theorem splitOnSlash_two_le_of_slash (cs : List Char) (h : '/' ∈ cs) :
    2 ≤ (splitOnSlash cs).length := by
  induction cs with
  | nil => simp at h
  | cons c cs ih =>
    by_cases hc : c = '/'
    · have h1 := splitOnSlash_ne_nil cs
      simp [splitOnSlash, hc]
      exact List.length_pos.mpr h1
    · have hm : '/' ∈ cs := by
        cases List.mem_cons.mp h with
        | inl h0 => exact absurd h0.symm hc
        | inr h0 => exact h0
      have h2 := ih hm
      cases hr : splitOnSlash cs with
      | nil => exact absurd hr (splitOnSlash_ne_nil cs)
      | cons a as =>
        rw [hr] at h2
        show 2 ≤ (splitOnSlash (c :: cs)).length
        unfold splitOnSlash
        rw [if_neg hc, hr]
        simpa using h2

theorem splitOnSlash_cons_slash (cs : List Char) :
    splitOnSlash ('/' :: cs) = [] :: splitOnSlash cs := rfl

theorem getLastD_splitOnSlash_append (pre rest : List Char) :
    (splitOnSlash (pre ++ '/' :: rest)).getLastD [] =
      (splitOnSlash rest).getLastD [] := by
  induction pre with
  | nil =>
    rw [List.nil_append, splitOnSlash_cons_slash, List.getLastD_cons]
  | cons c pre ih =>
    by_cases hc : c = '/'
    · rw [List.cons_append]
      show (splitOnSlash (c :: (pre ++ '/' :: rest))).getLastD [] = _
      simp only [splitOnSlash, if_pos hc, List.getLastD_cons]
      cases hr : splitOnSlash (pre ++ '/' :: rest) with
      | nil => exact absurd hr (splitOnSlash_ne_nil _)
      | cons a as =>
        rw [hr] at ih
        cases as with
        | nil =>
          have h2 := splitOnSlash_two_le_of_slash (pre ++ '/' :: rest)
            (by simp)
          rw [hr] at h2
          simp at h2
        | cons b bs => simpa using ih
    · rw [List.cons_append]
      show (splitOnSlash (c :: (pre ++ '/' :: rest))).getLastD [] = _
      have h2 := splitOnSlash_two_le_of_slash (pre ++ '/' :: rest) (by simp)
      cases hr : splitOnSlash (pre ++ '/' :: rest) with
      | nil => exact absurd hr (splitOnSlash_ne_nil _)
      | cons a as =>
        rw [hr] at ih h2
        cases as with
        | nil => simp at h2
        | cons b bs =>
          simp only [splitOnSlash, if_neg hc, hr]
          simp only [List.getLastD_cons] at ih ⊢
          exact ih

/-- C5: `patch_deployment` returns exactly the trailing path segment of the
`Location` header — for any header of the form `pre ++ "/" ++ seg` with no
slash in `seg`, the result is `seg` — and the result depends only on the
`Location` header, never on the JSON body. -/
theorem C5_deployment_id_from_location_header :
    (∀ (pre seg : List Char) (b : Option String), '/' ∉ seg →
      patch_deployment ⟨⟨pre ++ '/' :: seg⟩, b⟩ = ⟨seg⟩) ∧
    (∀ r₁ r₂ : DeployResponse, r₁.location = r₂.location →
      patch_deployment r₁ = patch_deployment r₂) := by
  constructor
  · intro pre seg b hseg
    show (⟨(splitOnSlash (pre ++ '/' :: seg)).getLastD []⟩ : String) = ⟨seg⟩
    rw [getLastD_splitOnSlash_append, splitOnSlash_of_no_slash seg hseg]
    rfl
  · intro r₁ r₂ h
    unfold patch_deployment
    rw [h]

/-- Witness for C5: a `Location` of
`.../patch/deployments/dep-99` yields `dep-99`, and two responses sharing a
`Location` but with different bodies yield the same identifier. -/
theorem C5_deployment_id_from_location_header_witness :
    patch_deployment ⟨"https://srv/st/console/api/v1.0/patch/deployments/dep-99",
        some "ignored"⟩ = "dep-99" ∧
    patch_deployment ⟨"a/b", some "x"⟩ = patch_deployment ⟨"a/b", none⟩ := by
  constructor
  · have h := C5_deployment_id_from_location_header.1
      "https://srv/st/console/api/v1.0/patch/deployments".data "dep-99".data
      (some "ignored") (by decide)
    exact h
  · exact C5_deployment_id_from_location_header.2 ⟨"a/b", some "x"⟩
      ⟨"a/b", none⟩ rfl

/-- C6: for every sequence of polled operation-status payloads (all bodies
valid JSON — an invalid body makes the unconditional `.json()` raise, see
C10), the readiness wait at the start of `get_patch_deployment_machines`
breaks out on the i-th poll exactly when that poll's payload has
`operation == "PatchDeployment"`, and on no earlier poll, whose payload
reports a different or missing `operation` field. -/
theorem C6_readiness_wait_terminates_iff_patch_deployment
    (rs : List PollResponse) (hwf : ∀ r ∈ rs, r.body.isSome) (i : Nat) :
    deployment_ready_wait rs = .succeeded i ↔
      (∃ r, rs[i]? = some r ∧ readyPoll r = true) ∧
        ∀ j, j < i → ∀ r, rs[j]? = some r → readyPoll r = false := by
  rw [show deployment_ready_wait rs = runWait readinessStep rs from rfl,
    runWait_succeeded_iff]
  constructor
  · rintro ⟨⟨r, hr, hd⟩, hall⟩
    refine ⟨⟨r, hr, (readinessStep_done_iff r).mp hd⟩, ?_⟩
    intro j hj r' hr'
    have hmem : r' ∈ rs := mem_of_getElemOpt hr'
    exact (readinessStep_again_of_wf r' (hwf r' hmem)).mp (hall j hj r' hr')
  · rintro ⟨⟨r, hr, hd⟩, hall⟩
    refine ⟨⟨r, hr, (readinessStep_done_iff r).mpr hd⟩, ?_⟩
    intro j hj r' hr'
    have hmem : r' ∈ rs := mem_of_getElemOpt hr'
    exact (readinessStep_again_of_wf r' (hwf r' hmem)).mpr (hall j hj r' hr')

/-- Witness for C6: a poll reporting `operation == "MachineGroupScan"`
followed by one reporting `"PatchDeployment"` makes the readiness wait break
on the second poll. -/
theorem C6_readiness_wait_terminates_iff_patch_deployment_witness :
    deployment_ready_wait
      [⟨200, some ⟨none, some "MachineGroupScan"⟩⟩,
       ⟨200, some ⟨none, some "PatchDeployment"⟩⟩] = .succeeded 1 := by
  refine (C6_readiness_wait_terminates_iff_patch_deployment
    [⟨200, some ⟨none, some "MachineGroupScan"⟩⟩,
     ⟨200, some ⟨none, some "PatchDeployment"⟩⟩]
    (by decide) 1).mpr
    ⟨⟨⟨200, some ⟨none, some "PatchDeployment"⟩⟩, rfl, rfl⟩, ?_⟩
  intro j hj r hr
  obtain rfl : j = 0 := by omega
  rw [List.getElem?_cons_zero] at hr
  cases hr
  rfl

/-- C10: the readiness poll in `get_patch_deployment_machines` parses every
poll response with `.json()` before (indeed, without ever) checking the HTTP
status code: its step depends only on the body, a response whose body is not
valid JSON makes the iteration raise — so the loop fails immediately on such
a response instead of sleeping and retrying — whereas the completion-wait
step of `start_deployment`/`wait_for_shutdown` retries the same non-200
non-JSON response. -/
theorem C10_readiness_poll_parses_body_unconditionally :
    (∀ r : PollResponse, r.body = none → readinessStep r = .raised) ∧
    (∀ r₁ r₂ : PollResponse, r₁.body = r₂.body →
      readinessStep r₁ = readinessStep r₂) ∧
    (∀ (r : PollResponse) (rs : List PollResponse), r.body = none →
      deployment_ready_wait (r :: rs) = .raised 0) ∧
    (∀ r : PollResponse, r.status_code ≠ 200 → r.body = none →
      completionStep r = .again) := by
  have h1 : ∀ r : PollResponse, r.body = none → readinessStep r = .raised := by
    intro r h
    simp [readinessStep, h]
  refine ⟨h1, ?_, ?_, ?_⟩
  · intro r₁ r₂ h
    unfold readinessStep
    rw [h]
  · intro r rs h
    show runWait readinessStep (r :: rs) = .raised 0
    simp [runWait, h1 r h]
  · intro r h200 _
    simp [completionStep, h200]

/-- Witness for C10: a 503 HTML error page (no JSON body) aborts the
readiness wait with an exception on the first poll, yet the same response is
silently retried by the completion-wait step. -/
theorem C10_readiness_poll_parses_body_unconditionally_witness :
    deployment_ready_wait
        [⟨503, none⟩, ⟨200, some ⟨none, some "PatchDeployment"⟩⟩]
      = .raised 0 ∧
    completionStep ⟨503, none⟩ = .again :=
  ⟨C10_readiness_poll_parses_body_unconditionally.2.2.1 ⟨503, none⟩
      [⟨200, some ⟨none, some "PatchDeployment"⟩⟩] rfl,
    C10_readiness_poll_parses_body_unconditionally.2.2.2 ⟨503, none⟩
      (by decide) rfl⟩

/-- The observable workflow actions of the script, in the order the
`__main__` block performs them. -/
inductive Event where
  | resolveName (endpoint : String) (name : String)
  | scanStart (groupId : String)
  | scanCompletionWait (scanId : String)
  | deployStart (scanId : String)
  | deployReadyWait (deploymentId : String)
  | machinesFetch (deploymentId : String)
  | deployCompletionWait (deploymentId : String)
  | shutdownCmd (ip : String) (reboot : Bool)
deriving DecidableEq, Repr

/-- The remote side of one run, as far as `__main__` observes it: the five
configured names, the ids the listings resolve them to, and the ids and
machine lists the server returns per scan and deployment. -/
structure Env where
  run_as_credentials : String
  scan_template : String
  machine_group_server : String
  machine_group_database : String
  deployment_template : String
  credential_id : String
  scan_template_id : String
  machine_group_server_id : String
  machine_group_database_id : String
  deployment_template_id : String
  scan_id : String → String
  deployment_id : String → String
  machines : String → List MachineRecord

/-- `get_run_as_credentials_id` (line 177): one resolution against the
`credentials` listing. Returns the id and the action performed. -/
def get_run_as_credentials_id_tr (env : Env) : String × List Event :=
  (env.credential_id, [.resolveName "credentials" env.run_as_credentials])

/-- `get_scan_template_id` (line 180): one resolution against the
`patch/scanTemplates` listing. -/
def get_scan_template_id_tr (env : Env) : String × List Event :=
  (env.scan_template_id, [.resolveName "patch/scanTemplates" env.scan_template])

/-- `get_deployment_template_id` (line 183): one resolution against the
`patch/deploytemplates` listing. -/
def get_deployment_template_id_tr (env : Env) : String × List Event :=
  (env.deployment_template_id,
    [.resolveName "patch/deploytemplates" env.deployment_template])

/-- `get_machine_group_id` (line 186): one resolution against the
`machinegroups` listing. -/
def get_machine_group_id_tr (env : Env) (name : String) (groupId : String) :
    String × List Event :=
  (groupId, [.resolveName "machinegroups" name])

/-- `scan_machine_group` (lines 188-218): POST `patch/scans` for the group,
return the scan id from the JSON body. -/
def scan_machine_group_tr (env : Env)
    (machine_group_id scan_template_id credential_id : String) :
    String × List Event :=
  (env.scan_id machine_group_id, [.scanStart machine_group_id])

/-- `start_deployment` (lines 269-295): wait for the scan to report
`Succeeded`, then POST `patch/deployments` and return the deployment id from
the `Location` header. -/
def start_deployment_tr (env : Env)
    (machine_group_server_scan_id deployment_template_id : String) :
    String × List Event :=
  (env.deployment_id machine_group_server_scan_id,
    [.scanCompletionWait machine_group_server_scan_id,
     .deployStart machine_group_server_scan_id])

/-- `get_patch_deployment_machines` (lines 297-322): wait for the operation
to report `PatchDeployment`, then fetch the machine list. -/
def get_patch_deployment_machines_tr (env : Env) (id : String) :
    List MachineRecord × List Event :=
  (env.machines id, [.deployReadyWait id, .machinesFetch id])

/-- `wait_for_shutdown` (lines 343-366): wait for the deployment to report
`Succeeded`, then issue one shutdown per machine; the Python parameter
`reboot_behaivior` defaults to `False` and the default is used for the
server ring. -/
def wait_for_shutdown_tr (deployment_server_machines : List MachineRecord)
    (deployment_id : String) (reboot_behaivior : Bool) : List Event :=
  .deployCompletionWait deployment_id ::
    deployment_server_machines.map fun machine =>
      .shutdownCmd machine.ip_address reboot_behaivior

/-- The `__main__` block (orchestration.py lines 423-438), one `let` per
source line, collecting the actions in program order. -/
def main_tr (env : Env) : List Event :=
  let p1 := get_run_as_credentials_id_tr env
  let p2 := get_scan_template_id_tr env
  let p3 := get_machine_group_id_tr env env.machine_group_server
    env.machine_group_server_id
  let p4 := get_machine_group_id_tr env env.machine_group_database
    env.machine_group_database_id
  let p5 := get_deployment_template_id_tr env
  let p6 := scan_machine_group_tr env p3.1 p2.1 p1.1
  let p7 := start_deployment_tr env p6.1 p5.1
  let p8 := get_patch_deployment_machines_tr env p7.1
  let e9 := wait_for_shutdown_tr p8.1 p7.1 false
  let p10 := scan_machine_group_tr env p4.1 p2.1 p1.1
  let p11 := start_deployment_tr env p10.1 p5.1
  let p12 := get_patch_deployment_machines_tr env p11.1
  let e13 := wait_for_shutdown_tr p12.1 p11.1 true
  p1.2 ++ p2.2 ++ p3.2 ++ p4.2 ++ p5.2 ++ p6.2 ++ p7.2 ++ p8.2 ++ e9 ++
    p10.2 ++ p11.2 ++ p12.2 ++ e13

/-- C9: for every environment, the workflow driver performs exactly: the
five name resolutions (credential, scan template, server group, database
group, deployment template), each once, before any scan; then scan, wait
for scan completion, deployment start, readiness wait, machine fetch, and
completion wait for the server group followed by non-forced shutdowns
(`reboot = false`) of its machines; then the same steps for the database
group followed by forced reboots (`reboot = true`) — in that strict
sequential order. -/
theorem C9_workflow_driver_order (env : Env) :
    main_tr env =
      [.resolveName "credentials" env.run_as_credentials,
       .resolveName "patch/scanTemplates" env.scan_template,
       .resolveName "machinegroups" env.machine_group_server,
       .resolveName "machinegroups" env.machine_group_database,
       .resolveName "patch/deploytemplates" env.deployment_template,
       .scanStart env.machine_group_server_id,
       .scanCompletionWait (env.scan_id env.machine_group_server_id),
       .deployStart (env.scan_id env.machine_group_server_id),
       .deployReadyWait
         (env.deployment_id (env.scan_id env.machine_group_server_id)),
       .machinesFetch
         (env.deployment_id (env.scan_id env.machine_group_server_id)),
       .deployCompletionWait
         (env.deployment_id (env.scan_id env.machine_group_server_id))] ++
      ((env.machines
          (env.deployment_id (env.scan_id env.machine_group_server_id))).map
        fun machine => .shutdownCmd machine.ip_address false) ++
      [.scanStart env.machine_group_database_id,
       .scanCompletionWait (env.scan_id env.machine_group_database_id),
       .deployStart (env.scan_id env.machine_group_database_id),
       .deployReadyWait
         (env.deployment_id (env.scan_id env.machine_group_database_id)),
       .machinesFetch
         (env.deployment_id (env.scan_id env.machine_group_database_id)),
       .deployCompletionWait
         (env.deployment_id (env.scan_id env.machine_group_database_id))] ++
      ((env.machines
          (env.deployment_id (env.scan_id env.machine_group_database_id))).map
        fun machine => .shutdownCmd machine.ip_address true) := by
  simp [main_tr, get_run_as_credentials_id_tr, get_scan_template_id_tr,
    get_machine_group_id_tr, get_deployment_template_id_tr,
    scan_machine_group_tr, start_deployment_tr,
    get_patch_deployment_machines_tr, wait_for_shutdown_tr]

end Orchestration
